import Mathlib

/-!
Shallow embedding of the stays-api sync pipeline and read engine.

Sources embedded here:
* `extractTotalPrice`, `isValidGuestName`, `extractGuestName`,
  `getPlatformImage`, `calculateNights`, `writeUnifiedBookingsToMongo`
  (sync service, src/unnamed/part_002);
* `getBookingsForPeriod`, `getFinancialSummary`, `getRevenueTrend`
  (src/src/services/FinancialsService.ts);
* `getUnifiedBookings` and the dashboard occupancy counts
  (src/unnamed/part_001);
* the `POST /sync/trigger` handler (src/src/routes/sync.ts).

JS numbers are modelled as `Int` (no claim depends on fractional values),
JS strings as `String`, and possibly-missing values as `Option`.
ISO `yyyy-MM-dd` date strings are compared with the lexicographic string
order, exactly as the source compares them (MongoDB `$gte`/`$lte` and JS
`<=` on strings).
-/

namespace Stays

/-! ### JS value helpers

Truthiness of the JS values that the source branches on: a number is falsy
iff it is `0` (NaN never arises in the embedded code paths), a string is
falsy iff it is empty, `null`/`undefined` (here `none`) is falsy.
-/

/-- JS `x && x > 0` on an optional number: `x` must be truthy (nonzero) and
positive, which for integers is just `0 < x`. -/
def usableNum : Option Int → Bool
  | none => false
  | some v => decide (0 < v)

/-- JS `x || d` on an optional number (`0` is falsy and falls through). -/
def numOr (x : Option Int) (d : Int) : Int :=
  match x with
  | none => d
  | some v => if v = 0 then d else v

/-- JS `x || y` on optional strings (`""` is falsy and falls through). -/
def strAlt : Option String → Option String → Option String
  | some s, y => if s = "" then y else some s
  | none, y => y

/-- JS `x || d` on an optional string with a non-null default. -/
def strOr (x : Option String) (d : String) : String :=
  match x with
  | none => d
  | some s => if s = "" then d else s

/-! ### Character/string primitives

The source uses `String.prototype.toLowerCase`, `trim`, `startsWith` and
`includes`; we model them over the character list of the string.
`toLowerCase` is modelled with the ASCII case map (every uppercase letter
appearing in the embedded data is ASCII).
-/

/-- JS `s.toLowerCase()` (ASCII case map). -/
def strLower (s : String) : String := ⟨s.data.map Char.toLower⟩

/-- JS `s.trim()`: strip whitespace from both ends. -/
def strTrim (s : String) : String :=
  ⟨((s.data.dropWhile Char.isWhitespace).reverse.dropWhile Char.isWhitespace).reverse⟩

/-- JS `s.startsWith(p)`. -/
def strStarts (s p : String) : Bool := p.data.isPrefixOf s.data

/-- JS `s.includes(p)`: `p` occurs contiguously inside `s`. -/
def strIncludes (s p : String) : Bool := s.data.tails.any fun t => p.data.isPrefixOf t

/-- Code-point lexicographic `≤` on character lists. -/
def charListLe : List Char → List Char → Bool
  | [], _ => true
  | _ :: _, [] => false
  | a :: as, b :: bs =>
    if a.toNat < b.toNat then true
    else if b.toNat < a.toNat then false
    else charListLe as bs

/-- Code-point lexicographic `≤` on strings: the order in which JS `<=` and
MongoDB `$gte`/`$lte` compare ISO `yyyy-MM-dd` date strings. -/
def strLe (a b : String) : Bool := charListLe a.data b.data

/-! ### Remote booking shape (`StaysBooking`, src/src/services/stays/types.ts)

Only the fields the sync writer reads.  Fields that the code accesses with
optional chaining or `||` guards are `Option`s.
-/

/-- `HostingDetails` price block: `_f_total` (required number). -/
structure HostingDetails where
  f_total : Int
  deriving Repr, DecidableEq

/-- `ExtrasDetails` price block: `_f_total` (required number). -/
structure ExtrasDetails where
  f_total : Int
  deriving Repr, DecidableEq

/-- `BookingPrice`: the nested price breakdown with its alternate
representations (`currency`, `_f_expected`, `_f_total`, `hostingDetails`,
`extrasDetails`, legacy `value`/`cleaning`/`extras`). -/
structure BookingPrice where
  currency : Option String := none
  f_expected : Option Int := none
  f_total : Option Int := none
  hostingDetails : Option HostingDetails := none
  extrasDetails : Option ExtrasDetails := none
  value : Option Int := none
  cleaning : Option Int := none
  extras : Option Int := none
  deriving Repr, DecidableEq

/-- `BookingStats`: `_f_totalPaid`, `nights`, guest counters. -/
structure BookingStats where
  f_totalPaid : Option Int := none
  nights : Option Int := none
  adults : Option Int := none
  children : Option Int := none
  babies : Option Int := none
  deriving Repr, DecidableEq

/-- One entry of `guestsDetails.list`: `name` (required), `primary` flag. -/
structure GuestListItem where
  name : String
  primary : Option Bool := none
  deriving Repr, DecidableEq

/-- `GuestsDetails`: structured primary `name` and the guest `list`. -/
structure GuestsDetails where
  name : Option String := none
  list : Option (List GuestListItem) := none
  deriving Repr, DecidableEq

/-- `Partner`: channel/partner info (`name` required). -/
structure Partner where
  name : String
  deriving Repr, DecidableEq

/-- `StaysBooking`: the remote reservation record as read by the writer. -/
structure StaysBooking where
  _id : String
  id : String
  _idlisting : String
  _idclient : Option String := none
  type : String
  status : Option String := none
  checkInDate : String
  checkInTime : Option String := none
  checkOutDate : String
  checkOutTime : Option String := none
  creationDate : Option String := none
  guests : Option Int := none
  price : Option BookingPrice := none
  stats : Option BookingStats := none
  guestsDetails : Option GuestsDetails := none
  partner : Option Partner := none
  source : Option String := none
  channelName : Option String := none
  deriving Repr, DecidableEq

/-! ### Field extraction: total price (`extractTotalPrice`, part_002:517-557) -/

/-- Optional-chained `booking.price?._f_total`. -/
def priceFTotal (b : StaysBooking) : Option Int := b.price.bind BookingPrice.f_total

/-- Optional-chained `booking.stats?._f_totalPaid`. -/
def statsFTotalPaid (b : StaysBooking) : Option Int := b.stats.bind BookingStats.f_totalPaid

/-- Optional-chained `booking.price?.hostingDetails?._f_total`. -/
def hostingFTotal (b : StaysBooking) : Option Int :=
  (b.price.bind BookingPrice.hostingDetails).map HostingDetails.f_total

/-- Optional-chained `booking.price.extrasDetails?._f_total`. -/
def extrasFTotal (b : StaysBooking) : Option Int :=
  (b.price.bind BookingPrice.extrasDetails).map ExtrasDetails.f_total

/-- Optional-chained `booking.price?._f_expected`. -/
def priceFExpected (b : StaysBooking) : Option Int := b.price.bind BookingPrice.f_expected

/-- Optional-chained `booking.price?.value`. -/
def priceValueField (b : StaysBooking) : Option Int := b.price.bind BookingPrice.value

/-- Strategy 6 sum `(price.value || 0) + (price.cleaning || 0) + (price.extras || 0)`. -/
def legacySum (p : BookingPrice) : Int :=
  numOr p.value 0 + numOr p.cleaning 0 + numOr p.extras 0

/-- `extractTotalPrice` (part_002:517-557): ordered fallback over the six
price representations, returning `none` when nothing matches. -/
def extractTotalPrice (b : StaysBooking) : Option Int :=
  if usableNum (priceFTotal b) then priceFTotal b
  else if usableNum (statsFTotalPaid b) then statsFTotalPaid b
  else if usableNum (hostingFTotal b) then
    some ((hostingFTotal b).getD 0 + numOr (extrasFTotal b) 0)
  else if usableNum (priceFExpected b) then priceFExpected b
  else if usableNum (priceValueField b) then priceValueField b
  else
    match b.price with
    | some p => if 0 < legacySum p then some (legacySum p) else none
    | none => none

example :
    extractTotalPrice
      { _id := "r1", id := "STA-1", _idlisting := "L1", type := "reserved",
        checkInDate := "2024-06-01", checkOutDate := "2024-06-04",
        price := some { f_total := some 900, value := some 500 } } = some 900 := by
  decide

example :
    extractTotalPrice
      { _id := "r1", id := "STA-1", _idlisting := "L1", type := "reserved",
        checkInDate := "2024-06-01", checkOutDate := "2024-06-04",
        price := some { value := some 500 } } = some 500 := by
  decide

example :
    extractTotalPrice
      { _id := "r1", id := "STA-1", _idlisting := "L1", type := "reserved",
        checkInDate := "2024-06-01", checkOutDate := "2024-06-04",
        price := some {} } = none := by
  decide

/-! ### Field extraction: guest name (`isValidGuestName` / `extractGuestName`,
part_002:794-861) -/

/-- The placeholder blacklist (part_002:798-803). -/
def placeholderNames : List String :=
  ["adult_0", "adult_1", "adult_2", "adult_3",
   "child_0", "child_1", "child_2", "child_3",
   "baby_0", "baby_1", "baby_2", "baby_3",
   "guest", "hóspede", "hospede"]

/-- `isValidGuestName` (part_002:794-816).  The TS parameter is
`string | undefined`; `!name` rejects `undefined` and `""`, then the
lowercased/trimmed name is checked against the placeholder list and the
synthetic `adult_`/`child_`/`baby_` prefixes. -/
def isValidGuestName : Option String → Bool
  | none => false
  | some name =>
    if name = "" || strTrim name = "" then false
    else
      let lowerName := strTrim (strLower name)
      if placeholderNames.contains lowerName then false
      else if strStarts lowerName "adult_" || strStarts lowerName "child_" ||
          strStarts lowerName "baby_" then false
      else true

/-- `guestsList.find(g => g.primary === true)` branch of `extractGuestName`
(part_002:840-846): the trimmed name of the guest flagged primary, when it
passes the placeholder filter. -/
def primaryGuestName (guestsList : List GuestListItem) : Option String :=
  match guestsList.find? (fun g => g.primary == some true) with
  | some pg =>
    if pg.name ≠ "" && isValidGuestName (some pg.name) then some (strTrim pg.name)
    else none
  | none => none

/-- `guestsList.find(g => isValidGuestName(g.name))` branch
(part_002:849-855): the trimmed name of the first guest passing the filter. -/
def firstValidGuestName (guestsList : List GuestListItem) : Option String :=
  match guestsList.find? (fun g => isValidGuestName (some g.name)) with
  | some g => if g.name ≠ "" then some (strTrim g.name) else none
  | none => none

/-- The guest-list part of `extractGuestName` (part_002:838-856): primary
guest first, then the first guest with a valid name. -/
def guestNameFromList (guestsList : List GuestListItem) : Option String :=
  (primaryGuestName guestsList).orElse fun _ => firstValidGuestName guestsList

/-- Fallback path of `extractGuestName` once `guestsDetails.name` has been
rejected (part_002:831-860): scan `guestsDetails.list` when it is a
non-empty array, else the fixed display string. -/
def extractGuestNameFromList (b : StaysBooking) : String :=
  match b.guestsDetails.bind GuestsDetails.list with
  | some guestsList =>
    if 0 < guestsList.length then (guestNameFromList guestsList).getD "Hóspede"
    else "Hóspede"
  | none => "Hóspede"

/-- `extractGuestName` (part_002:823-861): `guestsDetails.name` when truthy
and valid (returned trimmed), else the guest-list scan, else `"Hóspede"`. -/
def extractGuestName (b : StaysBooking) : String :=
  match b.guestsDetails.bind GuestsDetails.name with
  | some n =>
    if n ≠ "" && isValidGuestName (some n) then strTrim n
    else extractGuestNameFromList b
  | none => extractGuestNameFromList b

example : isValidGuestName (some "adult_0") = false := by decide
example : isValidGuestName (some " ADULT_0 ") = false := by decide
example : isValidGuestName (some "Maria Silva") = true := by decide
example : isValidGuestName (some "Hóspede") = false := by decide
example : isValidGuestName (some "baby_17") = false := by decide

/-! ### Platform image (`getPlatformImage`, part_002:866-895) -/

/-- The ordered platform → image asset map (part_002:870-885). -/
def platformImageMap : List (String × String) :=
  [("airbnb", "/images/platforms/airbnb.png"),
   ("api airbnb", "/images/platforms/airbnb.png"),
   ("booking", "/images/platforms/booking.svg"),
   ("booking.com", "/images/platforms/booking.png"),
   ("expedia", "/images/platforms/expedia.png"),
   ("vrbo", "/images/platforms/vrbo.png"),
   ("tripadvisor", "/images/platforms/tripadvisor.png"),
   ("homeaway", "/images/platforms/homeaway.png"),
   ("stays", "/images/platforms/stays.png"),
   ("stays.net", "/images/platforms/stays.png"),
   ("direct", "/images/platforms/direct.png"),
   ("direto", "/images/platforms/direct.png"),
   ("website", "/images/platforms/direct.png"),
   ("manual", "/images/platforms/direct.png")]

/-- `getPlatformImage` (part_002:866-895): first partial match of the
normalized platform against the map keys, else the default image. -/
def getPlatformImage (platform : Option String) : String :=
  match platform with
  | none => "/images/platforms/default.png"
  | some p =>
    if p = "" then "/images/platforms/default.png"
    else
      let normalizedPlatform := strTrim (strLower p)
      match platformImageMap.find? (fun kv => strIncludes normalizedPlatform kv.1) with
      | some kv => kv.2
      | none => "/images/platforms/default.png"

/-! ### Nights (`calculateNights`, part_002:900-909) -/

/-- Parse a decimal numeral. -/
def parseNatDigits (l : List Char) : Option Nat :=
  if l ≠ [] && l.all Char.isDigit then
    some (l.foldl (fun a c => a * 10 + (c.toNat - 48)) 0)
  else none

/-- Parse a `yyyy-MM-dd` ISO date into (year, month, day); `none` models
date-fns `parseISO` yielding an invalid date. -/
def parseISOdate (s : String) : Option (Nat × Nat × Nat) :=
  match s.data.splitOn '-' with
  | [ys, ms, ds] =>
    match parseNatDigits ys, parseNatDigits ms, parseNatDigits ds with
    | some y, some m, some d =>
      if 1 ≤ m && m ≤ 12 && 1 ≤ d && d ≤ 31 then some (y, m, d) else none
    | _, _, _ => none
  | _ => none

/-- Serial day number of a Gregorian date (era-based civil-day formula);
used to model date-fns `differenceInDays` on parsed ISO dates. -/
def daysFromCivil (y m d : Nat) : Nat :=
  let yAdj := if m ≤ 2 then y - 1 else y
  let era := yAdj / 400
  let yoe := yAdj - era * 400
  let mp := (m + 9) % 12
  let doy := (153 * mp + 2) / 5 + d - 1
  let doe := yoe * 365 + yoe / 4 - yoe / 100 + doy
  era * 146097 + doe

/-- `calculateNights` (part_002:900-909): day difference check-in →
check-out clamped to ≥ 0, and `0` when a date does not parse. -/
def calculateNights (checkInDate checkOutDate : String) : Int :=
  match parseISOdate checkInDate, parseISOdate checkOutDate with
  | some (y1, m1, d1), some (y2, m2, d2) =>
    let nights : Int := (daysFromCivil y2 m2 d2 : Int) - (daysFromCivil y1 m1 d1 : Int)
    if 0 < nights then nights else 0
  | _, _ => 0

example : calculateNights "2024-06-01" "2024-06-04" = 3 := by decide
example : calculateNights "2024-06-04" "2024-06-01" = 0 := by decide
example : calculateNights "2024-02-27" "2024-03-02" = 4 := by decide
example : calculateNights "not-a-date" "2024-03-02" = 0 := by decide

/-! ### The unified-booking mirror and the upsert writer
(`writeUnifiedBookingsToMongo`, part_002:914-1025)

A mirror state is a map from document id (the reservation id) to the stored
document.  The `$set` document of the writer is embedded field by field;
`createdAt` lives only in `$setOnInsert`, and the team-assignment
(`responsibleId`/`responsibleName`) and feedback
(`feedbackRating`/`feedbackComment`/`feedbackDate`) fields — written by
`TeamService.assignResponsible`/`addFeedback` — appear in neither, so an
update leaves them as they were.
-/

/-- `ListingDetails` as used by the writer: `internalName`, `name`,
`address` (all may be absent). -/
structure ListingDetails where
  internalName : Option String := none
  name : Option String := none
  address : Option String := none
  deriving Repr, DecidableEq

/-- A stored unified-booking document (`FirestoreUnifiedBooking`).
Timestamps are abstract `Nat` instants. -/
structure UnifiedDoc where
  id : String
  staysReservationId : String
  staysBookingCode : String
  listingId : String
  apartmentCode : String
  listingName : Option String
  listingAddress : Option String
  type : String
  status : Option String
  checkInDate : String
  checkInTime : Option String
  checkOutDate : String
  checkOutTime : Option String
  nights : Int
  creationDate : Option String
  guestName : String
  guestCount : Int
  adults : Int
  children : Int
  babies : Int
  clientId : Option String
  guestCountry : Option String
  guestLanguage : Option String
  guestNationality : Option String
  guestEmail : Option String
  guestPhone : Option String
  platform : Option String
  platformImage : String
  channelName : Option String
  source : Option String
  priceValue : Option Int
  priceCurrency : String
  updatedAt : Nat
  syncedAt : Nat
  createdAt : Nat
  responsibleId : Option String
  responsibleName : Option String
  feedbackRating : Option Int
  feedbackComment : Option String
  feedbackDate : Option Nat
  deriving Repr, DecidableEq

/-- `booking.partner?.name || booking.source || null` (part_002:943). -/
def platformOf (b : StaysBooking) : Option String :=
  strAlt (b.partner.map Partner.name) (strAlt b.source none)

/-- `booking.guests || ((stats?.adults || 0) + (stats?.children || 0) +
(stats?.babies || 0)) || 0` (part_002:952-953); the trailing `|| 0` is the
identity on an integer sum. -/
def guestCountOf (b : StaysBooking) : Int :=
  numOr b.guests
    (numOr (b.stats.bind BookingStats.adults) 0 +
      numOr (b.stats.bind BookingStats.children) 0 +
      numOr (b.stats.bind BookingStats.babies) 0)

/-- `booking.stats?.nights || calculateNights(...)` (part_002:956). -/
def nightsOf (b : StaysBooking) : Int :=
  numOr (b.stats.bind BookingStats.nights) (calculateNights b.checkInDate b.checkOutDate)

/-- The document produced for a fresh insert: every `$set` field
(part_002:962-1013) computed from the booking and the listings map, plus
`$setOnInsert: { createdAt: now }`; fields of other subsystems are absent
(`none`). -/
def insertedUnifiedDoc (now : Nat) (listings : List (String × ListingDetails))
    (b : StaysBooking) : UnifiedDoc :=
  let listing := listings.lookup b._idlisting
  let platform := platformOf b
  { id := b._id
    staysReservationId := b._id
    staysBookingCode := b.id
    listingId := b._idlisting
    apartmentCode := strOr (listing.bind ListingDetails.internalName) b._idlisting
    listingName := strAlt (listing.bind ListingDetails.name) none
    listingAddress := strAlt (listing.bind ListingDetails.address) none
    type := b.type
    status := strAlt b.status none
    checkInDate := b.checkInDate
    checkInTime := strAlt b.checkInTime none
    checkOutDate := b.checkOutDate
    checkOutTime := strAlt b.checkOutTime none
    nights := nightsOf b
    creationDate := strAlt b.creationDate none
    guestName := extractGuestName b
    guestCount := guestCountOf b
    adults := numOr (b.stats.bind BookingStats.adults) 0
    children := numOr (b.stats.bind BookingStats.children) 0
    babies := numOr (b.stats.bind BookingStats.babies) 0
    clientId := strAlt b._idclient none
    guestCountry := none
    guestLanguage := none
    guestNationality := none
    guestEmail := none
    guestPhone := none
    platform := platform
    platformImage := getPlatformImage platform
    channelName := strAlt b.channelName none
    source := strAlt b.source none
    priceValue := extractTotalPrice b
    priceCurrency := strOr (b.price.bind BookingPrice.currency) "BRL"
    updatedAt := now
    syncedAt := now
    createdAt := now
    responsibleId := none
    responsibleName := none
    feedbackRating := none
    feedbackComment := none
    feedbackDate := none }

/-- The document produced by an update of `old`: the same `$set` fields,
while `createdAt` (`$setOnInsert` only) and the fields absent from the
update (team assignment, feedback) keep their stored values. -/
def updatedUnifiedDoc (now : Nat) (listings : List (String × ListingDetails))
    (b : StaysBooking) (old : UnifiedDoc) : UnifiedDoc :=
  { insertedUnifiedDoc now listings b with
    createdAt := old.createdAt
    responsibleId := old.responsibleId
    responsibleName := old.responsibleName
    feedbackRating := old.feedbackRating
    feedbackComment := old.feedbackComment
    feedbackDate := old.feedbackDate }

/-- One `updateOne ... upsert: true` operation keyed by the map entry. -/
def upsertUnifiedOne (now : Nat) (listings : List (String × ListingDetails))
    (mirror : String → Option UnifiedDoc) (entry : String × StaysBooking) :
    String → Option UnifiedDoc :=
  fun k =>
    if k = entry.1 then
      match mirror entry.1 with
      | some old => some (updatedUnifiedDoc now listings entry.2 old)
      | none => some (insertedUnifiedDoc now listings entry.2)
    else mirror k

/-- `writeUnifiedBookingsToMongo` (part_002:914-1025): the bulk write
applies the upsert of every map entry in order to the mirror. -/
def writeUnifiedBookings (now : Nat) (listings : List (String × ListingDetails))
    (bookings : List (String × StaysBooking)) (mirror : String → Option UnifiedDoc) :
    String → Option UnifiedDoc :=
  bookings.foldl (upsertUnifiedOne now listings) mirror

/-- The keys of the writer's unconditional `$set` document, in source order
(part_002:962-1013). -/
def unifiedSetFields : List String :=
  ["id", "staysReservationId", "staysBookingCode",
   "listingId", "apartmentCode", "listingName", "listingAddress",
   "type", "status",
   "checkInDate", "checkInTime", "checkOutDate", "checkOutTime",
   "nights", "creationDate",
   "guestName", "guestCount", "adults", "children", "babies",
   "clientId", "guestCountry", "guestLanguage", "guestNationality",
   "guestEmail", "guestPhone",
   "platform", "platformImage", "channelName", "source",
   "priceValue", "priceCurrency",
   "updatedAt", "syncedAt"]

/-- `priceCurrency: booking.price?.currency || 'BRL'` as written by the
per-reservation writer `writeReservationsToMongo` (part_002:774). -/
def reservationSetPriceCurrency (b : StaysBooking) : String :=
  strOr (b.price.bind BookingPrice.currency) "BRL"

/-! ### Read engine: window filter and financial rollups
(src/src/services/FinancialsService.ts) -/

/-- The shared overlap test of the Mongo query
`{ checkOutDate: { $gte: from }, checkInDate: { $lte: to } }`
(FinancialsService.ts:24-27, part_001:91-93); ISO date strings compare
lexicographically. -/
def overlapsWindow (fromD toD : String) (b : UnifiedDoc) : Bool :=
  strLe fromD b.checkOutDate && strLe b.checkInDate toD

/-- `getBookingsForPeriod` (FinancialsService.ts:17-35): the window filter,
plus `type: { $ne: 'blocked' }` unless `includeBlocked`. -/
def getBookingsForPeriod (docs : List UnifiedDoc) (fromD toD : String)
    (includeBlocked : Bool) : List UnifiedDoc :=
  docs.filter fun b => overlapsWindow fromD toD b && (includeBlocked || b.type != "blocked")

/-- The accumulators of `getFinancialSummary` (FinancialsService.ts:79-90). -/
structure FinancialTotals where
  totalRevenue : Int
  totalNights : Int
  reservationsCount : Nat
  deriving Repr, DecidableEq

/-- The loop body of `getFinancialSummary` (FinancialsService.ts:83-90):
for a non-blocked booking, revenue adds `booking.priceValue || 0`, nights
add `booking.nights || 0` (the identity on an integer), and the booking is
counted. -/
def finStep (acc : FinancialTotals) (b : UnifiedDoc) : FinancialTotals :=
  if b.type != "blocked" then
    { totalRevenue := acc.totalRevenue + numOr b.priceValue 0
      totalNights := acc.totalNights + b.nights
      reservationsCount := acc.reservationsCount + 1 }
  else acc

/-- The fold of `getFinancialSummary` (FinancialsService.ts:72-90) over the
non-blocked window set. -/
def financialSummaryTotals (docs : List UnifiedDoc) (fromD toD : String) :
    FinancialTotals :=
  (getBookingsForPeriod docs fromD toD false).foldl finStep
    { totalRevenue := 0, totalNights := 0, reservationsCount := 0 }

/-- The loop body of one month of `getRevenueTrend`
(FinancialsService.ts:264-269): `monthRevenue += booking.priceValue || 0;
monthBookings++`. -/
def trendStep (acc : Int × Nat) (b : UnifiedDoc) : Int × Nat :=
  if b.type != "blocked" then (acc.1 + numOr b.priceValue 0, acc.2 + 1)
  else acc

/-- One month's fold of `getRevenueTrend` (FinancialsService.ts:259-269)
over the non-blocked bookings of the month window. -/
def revenueTrendMonth (docs : List UnifiedDoc) (fromD toD : String) : Int × Nat :=
  (getBookingsForPeriod docs fromD toD false).foldl trendStep (0, 0)

/-! ### Read engine: dashboard occupancy (part_001:83-287) -/

/-- `getUnifiedBookings` (part_001:83-99): the dashboard's base query — the
window filter together with `type: { $ne: 'blocked' }`. -/
def getUnifiedBookingsQuery (docs : List UnifiedDoc) (fromD toD : String) :
    List UnifiedDoc :=
  docs.filter fun b =>
    strLe fromD b.checkOutDate && strLe b.checkInDate toD && b.type != "blocked"

/-- `getUniqueListings` (part_001:104-112): the distinct listing ids of the
fetched bookings (`totalUnits` is its size). -/
def uniqueListingIds (docs : List UnifiedDoc) : List String :=
  (docs.map UnifiedDoc.listingId).dedup

/-- The per-day occupied count of the dashboard (part_001:213-216, 236-240,
275-279): size of the set of listing ids of fetched bookings with
`checkInDate <= day && checkOutDate >= day`. -/
def occupiedOnDay (docs : List UnifiedDoc) (day : String) : Nat :=
  (((docs.filter fun b =>
        strLe b.checkInDate day && strLe day b.checkOutDate).map
      UnifiedDoc.listingId).dedup).length

/-! ### Sync trigger route (src/src/routes/sync.ts:30-55) -/

/-- The persisted sync-status document as read by `getSyncStatus`
(only the field the route consults). -/
structure SyncStatusDoc where
  status : Option String := none
  deriving Repr, DecidableEq

/-- `getSyncStatus().status` (part_002:1122-1149): `"never"` when the
document is absent or the field is falsy, else the stored string. -/
def getSyncStatusString (stored : Option SyncStatusDoc) : String :=
  match stored with
  | none => "never"
  | some d => strOr d.status "never"

/-- The observable outcome of `POST /sync/trigger`. -/
structure TriggerOutcome where
  statusCode : Nat
  message : String
  startsSync : Bool
  deriving Repr, DecidableEq

/-- The `POST /sync/trigger` handler (sync.ts:30-55): `409` without starting
a run when the stored status is `"running"`, else an acknowledgment while
`syncStaysData()` is kicked off in the background. -/
def syncTriggerHandler (stored : Option SyncStatusDoc) : TriggerOutcome :=
  if getSyncStatusString stored = "running" then
    { statusCode := 409, message := "Sync is already running", startsSync := false }
  else
    { statusCode := 200, message := "Sync started", startsSync := true }

/-! ### Concrete sample data for scenario checks, witnesses and
counterexamples -/

/-- An all-default stored document; concrete documents below override the
fields a scenario fixes. -/
def baseDoc : UnifiedDoc :=
  { id := "", staysReservationId := "", staysBookingCode := "", listingId := ""
    apartmentCode := "", listingName := none, listingAddress := none
    type := "", status := none
    checkInDate := "", checkInTime := none, checkOutDate := "", checkOutTime := none
    nights := 0, creationDate := none
    guestName := "", guestCount := 0, adults := 0, children := 0, babies := 0
    clientId := none, guestCountry := none, guestLanguage := none
    guestNationality := none, guestEmail := none, guestPhone := none
    platform := none, platformImage := "", channelName := none, source := none
    priceValue := none, priceCurrency := "BRL"
    updatedAt := 0, syncedAt := 0, createdAt := 0
    responsibleId := none, responsibleName := none
    feedbackRating := none, feedbackComment := none, feedbackDate := none }

/-- Scenario booking A (§8): normal, 2024-06-01 → 2024-06-04, resolved
price 900 on listing L1. -/
def docA : UnifiedDoc :=
  { baseDoc with
    id := "A"
    staysReservationId := "A"
    listingId := "L1"
    type := "booked"
    checkInDate := "2024-06-01"
    checkOutDate := "2024-06-04"
    nights := 3
    priceValue := some 900 }

/-- Scenario booking B (§8): `type = blocked` on the same listing,
2024-06-05 → 2024-06-06. -/
def docB : UnifiedDoc :=
  { baseDoc with
    id := "B"
    staysReservationId := "B"
    listingId := "L1"
    type := "blocked"
    checkInDate := "2024-06-05"
    checkOutDate := "2024-06-06"
    nights := 1 }

/-- The §8 overlap example: checkIn=2024-03-10, checkOut=2024-03-15. -/
def docMarch : UnifiedDoc :=
  { baseDoc with
    id := "M"
    staysReservationId := "M"
    listingId := "L2"
    type := "booked"
    checkInDate := "2024-03-10"
    checkOutDate := "2024-03-15"
    nights := 5
    priceValue := some 500 }

/-- A non-blocked in-window booking whose resolved price is null. -/
def docNull : UnifiedDoc :=
  { baseDoc with
    id := "N"
    staysReservationId := "N"
    listingId := "L3"
    type := "booked"
    checkInDate := "2024-06-02"
    checkOutDate := "2024-06-04"
    nights := 2
    priceValue := none }

/-- A previously synced document that the enrichment service has filled in
and that has a team assignment and feedback. -/
def enrichedDoc : UnifiedDoc :=
  { baseDoc with
    id := "R1"
    staysReservationId := "R1"
    listingId := "L1"
    type := "booked"
    checkInDate := "2024-06-01"
    checkOutDate := "2024-06-04"
    nights := 3
    priceValue := some 900
    createdAt := 1
    clientId := some "C9"
    guestCountry := some "BR"
    guestLanguage := some "pt"
    guestNationality := some "BR"
    guestEmail := some "maria@example.com"
    guestPhone := some "+55"
    responsibleId := some "U7"
    responsibleName := some "Ana"
    feedbackRating := some 5
    feedbackComment := some "great"
    feedbackDate := some 3 }

/-- The remote record of reservation R1 as a later sync run sees it. -/
def bkR1 : StaysBooking :=
  { _id := "R1"
    id := "STA-1"
    _idlisting := "L1"
    _idclient := some "C9"
    type := "booked"
    checkInDate := "2024-06-01"
    checkOutDate := "2024-06-04"
    price := some { f_total := some 900, currency := some "BRL" }
    stats := some { nights := some 3, adults := some 2 }
    guestsDetails := some { name := some "Maria Silva" } }

/-- A remote record carrying both a fee-inclusive total and a legacy flat
price value. -/
def bkBoth : StaysBooking :=
  { _id := "R2"
    id := "STA-2"
    _idlisting := "L1"
    type := "booked"
    checkInDate := "2024-06-01"
    checkOutDate := "2024-06-04"
    price := some { f_total := some 900, value := some 500 } }

/-- A remote record whose structured guest-details name is a real name. -/
def bkMaria : StaysBooking :=
  { _id := "R3"
    id := "STA-3"
    _idlisting := "L1"
    type := "booked"
    checkInDate := "2024-06-01"
    checkOutDate := "2024-06-04"
    guestsDetails := some { name := some "Maria Silva" } }

/-- A remote record with a placeholder guest-details name and a guest list
whose usable entry is not the primary one. -/
def bkPlaceholder : StaysBooking :=
  { _id := "R4"
    id := "STA-4"
    _idlisting := "L1"
    type := "booked"
    checkInDate := "2024-06-01"
    checkOutDate := "2024-06-04"
    guestsDetails := some
      { name := some "adult_0"
        list := some [{ name := "adult_1", primary := some true },
                      { name := "João Souza" }] } }

/-- A remote record with no price block at all. -/
def bkNoPrice : StaysBooking :=
  { _id := "R5"
    id := "STA-5"
    _idlisting := "L1"
    type := "booked"
    checkInDate := "2024-06-02"
    checkOutDate := "2024-06-04" }

/-- A remote record whose price block names a non-default currency. -/
def bkUSD : StaysBooking :=
  { _id := "R6"
    id := "STA-6"
    _idlisting := "L1"
    type := "booked"
    checkInDate := "2024-06-02"
    checkOutDate := "2024-06-04"
    price := some { currency := some "USD", f_total := some 100 } }

/-! ### Shared helper lemmas -/

/-- A name accepted by the placeholder filter is non-empty. -/
theorem isValidGuestName_ne_empty {n : String}
    (h : isValidGuestName (some n) = true) : n ≠ "" := by
  intro he
  subst he
  exact absurd h (by decide)

/-! ### Claim theorems -/

/-- Claim C2: `extractTotalPrice` applies the six price strategies in
order, attempting each only when every prior one yielded no value > 0, and
returns `none` when no strategy yields a usable value; in particular a
usable fee-inclusive `price._f_total` wins outright, whatever the legacy
flat value is. -/
theorem extract_total_price_ordered (b : StaysBooking) :
    (usableNum (priceFTotal b) = true → extractTotalPrice b = priceFTotal b)
  ∧ (usableNum (priceFTotal b) = false → usableNum (statsFTotalPaid b) = true →
      extractTotalPrice b = statsFTotalPaid b)
  ∧ (usableNum (priceFTotal b) = false → usableNum (statsFTotalPaid b) = false →
      usableNum (hostingFTotal b) = true →
      extractTotalPrice b = some ((hostingFTotal b).getD 0 + numOr (extrasFTotal b) 0))
  ∧ (usableNum (priceFTotal b) = false → usableNum (statsFTotalPaid b) = false →
      usableNum (hostingFTotal b) = false → usableNum (priceFExpected b) = true →
      extractTotalPrice b = priceFExpected b)
  ∧ (usableNum (priceFTotal b) = false → usableNum (statsFTotalPaid b) = false →
      usableNum (hostingFTotal b) = false → usableNum (priceFExpected b) = false →
      usableNum (priceValueField b) = true →
      extractTotalPrice b = priceValueField b)
  ∧ (∀ p, usableNum (priceFTotal b) = false → usableNum (statsFTotalPaid b) = false →
      usableNum (hostingFTotal b) = false → usableNum (priceFExpected b) = false →
      usableNum (priceValueField b) = false → b.price = some p → 0 < legacySum p →
      extractTotalPrice b = some (legacySum p))
  ∧ ((∀ p, b.price = some p → ¬ 0 < legacySum p) →
      usableNum (priceFTotal b) = false → usableNum (statsFTotalPaid b) = false →
      usableNum (hostingFTotal b) = false → usableNum (priceFExpected b) = false →
      usableNum (priceValueField b) = false →
      extractTotalPrice b = none) := by
  refine ⟨?_, ?_, ?_, ?_, ?_, ?_, ?_⟩
  · intro h1
    simp [extractTotalPrice, h1]
  · intro h1 h2
    simp [extractTotalPrice, h1, h2]
  · intro h1 h2 h3
    simp [extractTotalPrice, h1, h2, h3]
  · intro h1 h2 h3 h4
    simp [extractTotalPrice, h1, h2, h3, h4]
  · intro h1 h2 h3 h4 h5
    simp [extractTotalPrice, h1, h2, h3, h4, h5]
  · intro p h1 h2 h3 h4 h5 hp hpos
    simp [extractTotalPrice, h1, h2, h3, h4, h5, hp, hpos]
  · intro hleg h1 h2 h3 h4 h5
    rcases hp : b.price with _ | p
    · simp [extractTotalPrice, h1, h2, h3, h4, h5, hp]
    · simp [extractTotalPrice, h1, h2, h3, h4, h5, hp, hleg p hp]

/-- Witness for C2: a record carrying both a fee-inclusive total (900) and
a legacy flat value (500) resolves to the fee-inclusive total. -/
theorem extract_total_price_ordered_witness : extractTotalPrice bkBoth = some 900 :=
  ((extract_total_price_ordered bkBoth).1 (by decide)).trans (by decide)

/-- Claim C4: a record is selected by the read engine's window filter iff
`checkOutDate >= from` and `checkInDate <= to` (ISO strings compared
lexicographically); the §8 example booking (2024-03-10 → 2024-03-15) is
included by the window 2024-03-14..2024-03-20 and excluded by
2024-03-16..2024-03-20. -/
theorem window_overlap_filter (docs : List UnifiedDoc) (fromD toD : String)
    (b : UnifiedDoc) :
    (b ∈ getBookingsForPeriod docs fromD toD true ↔
      b ∈ docs ∧ strLe fromD b.checkOutDate = true ∧ strLe b.checkInDate toD = true)
  ∧ (b.type ≠ "blocked" →
      (b ∈ getUnifiedBookingsQuery docs fromD toD ↔
        b ∈ docs ∧ strLe fromD b.checkOutDate = true ∧ strLe b.checkInDate toD = true))
  ∧ overlapsWindow "2024-03-14" "2024-03-20" docMarch = true
  ∧ overlapsWindow "2024-03-16" "2024-03-20" docMarch = false := by
  refine ⟨?_, ?_, by decide, by decide⟩
  · simp [getBookingsForPeriod, List.mem_filter, overlapsWindow, and_assoc]
  · intro hb
    simp [getUnifiedBookingsQuery, List.mem_filter, bne_iff_ne, hb, and_assoc]

/-- Witness for C4: the example booking is selected by the overlapping
window. -/
theorem window_overlap_filter_witness :
    docMarch ∈ getBookingsForPeriod [docMarch] "2024-03-14" "2024-03-20" true :=
  (window_overlap_filter [docMarch] "2024-03-14" "2024-03-20" docMarch).1.mpr
    ⟨by simp, by decide, by decide⟩

/-- Claim C5: guest-name resolution returns, in order, the structured
guest-details name when it passes the placeholder filter (trimmed), else
the valid name of the guest flagged primary, else the first valid
guest-list name, else the fixed string `"Hóspede"`; the filter rejects
`"adult_0"` and accepts `"Maria Silva"`. -/
theorem guest_name_resolution (b : StaysBooking) :
    (∀ n, b.guestsDetails.bind GuestsDetails.name = some n →
      isValidGuestName (some n) = true → extractGuestName b = strTrim n)
  ∧ (∀ l pg, isValidGuestName (b.guestsDetails.bind GuestsDetails.name) = false →
      b.guestsDetails.bind GuestsDetails.list = some l →
      l.find? (fun g => g.primary == some true) = some pg →
      isValidGuestName (some pg.name) = true →
      extractGuestName b = strTrim pg.name)
  ∧ (∀ l g, isValidGuestName (b.guestsDetails.bind GuestsDetails.name) = false →
      b.guestsDetails.bind GuestsDetails.list = some l →
      (∀ pg, l.find? (fun g => g.primary == some true) = some pg →
        isValidGuestName (some pg.name) = false) →
      l.find? (fun g => isValidGuestName (some g.name)) = some g →
      extractGuestName b = strTrim g.name)
  ∧ (isValidGuestName (b.guestsDetails.bind GuestsDetails.name) = false →
      (∀ l, b.guestsDetails.bind GuestsDetails.list = some l →
        ∀ g ∈ l, isValidGuestName (some g.name) = false) →
      extractGuestName b = "Hóspede")
  ∧ isValidGuestName (some "adult_0") = false
  ∧ isValidGuestName (some "Maria Silva") = true := by
  refine ⟨?_, ?_, ?_, ?_, by decide, by decide⟩
  · intro n hn hv
    unfold extractGuestName
    rw [hn]
    simp [isValidGuestName_ne_empty hv, hv]
  · intro l pg hinv hl hfind hv
    have hmem := List.mem_of_find?_eq_some hfind
    have hlen : 0 < l.length := List.length_pos.mpr (by rintro rfl; simp at hmem)
    have hrest : extractGuestNameFromList b = strTrim pg.name := by
      simp [extractGuestNameFromList, hl, hlen, guestNameFromList, primaryGuestName,
        hfind, isValidGuestName_ne_empty hv, hv, Option.orElse]
    rcases hn : b.guestsDetails.bind GuestsDetails.name with _ | n
    · simp [extractGuestName, hn, hrest]
    · rw [hn] at hinv
      simp [extractGuestName, hn, hinv, hrest]
  · intro l g hinv hl hnp hfind
    have hmem := List.mem_of_find?_eq_some hfind
    have hv : isValidGuestName (some g.name) = true := by
      simpa using List.find?_some hfind
    have hlen : 0 < l.length := List.length_pos.mpr (by rintro rfl; simp at hmem)
    have hprim : primaryGuestName l = none := by
      rcases hp : l.find? (fun g => g.primary == some true) with _ | pg
      · simp [primaryGuestName, hp]
      · simp [primaryGuestName, hp, hnp pg hp]
    have hrest : extractGuestNameFromList b = strTrim g.name := by
      simp [extractGuestNameFromList, hl, hlen, guestNameFromList, hprim,
        firstValidGuestName, hfind, isValidGuestName_ne_empty hv, Option.orElse]
    rcases hn : b.guestsDetails.bind GuestsDetails.name with _ | n
    · simp [extractGuestName, hn, hrest]
    · rw [hn] at hinv
      simp [extractGuestName, hn, hinv, hrest]
  · intro hinv hall
    have hrest : extractGuestNameFromList b = "Hóspede" := by
      rcases hl : b.guestsDetails.bind GuestsDetails.list with _ | l
      · simp [extractGuestNameFromList, hl]
      · have hall' := hall l hl
        have hprim : primaryGuestName l = none := by
          rcases hp : l.find? (fun g => g.primary == some true) with _ | pg
          · simp [primaryGuestName, hp]
          · simp [primaryGuestName, hp, hall' pg (List.mem_of_find?_eq_some hp)]
        have hfirst : firstValidGuestName l = none := by
          have hfn : l.find? (fun g => isValidGuestName (some g.name)) = none :=
            List.find?_eq_none.mpr (by intro g hg; simp [hall' g hg])
          simp [firstValidGuestName, hfn]
        rcases Nat.eq_zero_or_pos l.length with hlen | hlen
        · simp [extractGuestNameFromList, hl, hlen]
        · simp [extractGuestNameFromList, hl, hlen, guestNameFromList, hprim, hfirst,
            Option.orElse]
    rcases hn : b.guestsDetails.bind GuestsDetails.name with _ | n
    · simp [extractGuestName, hn, hrest]
    · rw [hn] at hinv
      simp [extractGuestName, hn, hinv, hrest]

/-- Witness for C5: a structured guest-details name passing the filter is
returned verbatim. -/
theorem guest_name_resolution_witness : extractGuestName bkMaria = "Maria Silva" :=
  ((guest_name_resolution bkMaria).1 "Maria Silva" rfl (by decide)).trans (by decide)

/-- Claim C7: `POST /sync/trigger` responds 409 and does not start a run
when the stored status is `running`; for any other stored status it
acknowledges and starts the sync. -/
theorem sync_trigger_conflict_guard (stored : Option SyncStatusDoc) :
    (getSyncStatusString stored = "running" →
      syncTriggerHandler stored =
        { statusCode := 409, message := "Sync is already running", startsSync := false })
  ∧ (getSyncStatusString stored ≠ "running" →
      syncTriggerHandler stored =
        { statusCode := 200, message := "Sync started", startsSync := true }) := by
  unfold syncTriggerHandler
  constructor
  · intro h
    simp [h]
  · intro h
    simp [h]

/-- Witness for C7: a stored `running` status yields the conflict outcome. -/
theorem sync_trigger_conflict_guard_witness :
    syncTriggerHandler (some { status := some "running" }) =
      { statusCode := 409, message := "Sync is already running", startsSync := false } :=
  (sync_trigger_conflict_guard (some { status := some "running" })).1 (by decide)

/-- Claim C10: the stored `priceCurrency` equals the remote
`price.currency` when present and non-empty and defaults to `"BRL"`
otherwise, in both the unified writer and the per-reservation writer; an
update writes the same value as an insert. -/
theorem price_currency_default (b : StaysBooking) (now : Nat)
    (listings : List (String × ListingDetails)) (old : UnifiedDoc) :
    (∀ c, b.price.bind BookingPrice.currency = some c → c ≠ "" →
      (insertedUnifiedDoc now listings b).priceCurrency = c ∧
        reservationSetPriceCurrency b = c)
  ∧ (b.price.bind BookingPrice.currency = none ∨
        b.price.bind BookingPrice.currency = some "" →
      (insertedUnifiedDoc now listings b).priceCurrency = "BRL" ∧
        reservationSetPriceCurrency b = "BRL")
  ∧ (updatedUnifiedDoc now listings b old).priceCurrency =
      (insertedUnifiedDoc now listings b).priceCurrency := by
  refine ⟨?_, ?_, rfl⟩
  · intro c hc hne
    constructor <;> simp [insertedUnifiedDoc, reservationSetPriceCurrency, strOr, hc, hne]
  · rintro (hc | hc) <;>
      constructor <;> simp [insertedUnifiedDoc, reservationSetPriceCurrency, strOr, hc]

/-- Witness for C10: a non-empty remote currency is stored verbatim. -/
theorem price_currency_default_witness :
    (insertedUnifiedDoc 0 [] bkUSD).priceCurrency = "USD" ∧
      reservationSetPriceCurrency bkUSD = "USD" :=
  (price_currency_default bkUSD 0 [] baseDoc).1 "USD" rfl (by decide)

/-- Code-point lexicographic `<` on strings. -/
def strLt (a b : String) : Bool := strLe a b && a != b

/-- Comparison definition for C8, following the spec's words: the per-day
occupied count under a half-open `[checkIn, checkOut)` reading, in which a
booking's checkout day is not occupied by that booking. -/
def occupiedOnDayHalfOpen (docs : List UnifiedDoc) (day : String) : Nat :=
  (((docs.filter fun b =>
        strLe b.checkInDate day && strLt day b.checkOutDate).map
      UnifiedDoc.listingId).dedup).length

/-- Claim C1 (violation): the writer's unconditional `$set` *does* contain
the client-demographic fields — an update resets `guestCountry` …
`guestPhone` to null and rewrites `clientId` — while the team-assignment
and feedback fields are indeed absent and survive an update.  Evaluated on
reservation R1 re-synced over its previously enriched document. -/
theorem unified_set_clobbers_demographics :
    (updatedUnifiedDoc 5 [] bkR1 enrichedDoc).guestCountry = none
  ∧ (updatedUnifiedDoc 5 [] bkR1 enrichedDoc).guestLanguage = none
  ∧ (updatedUnifiedDoc 5 [] bkR1 enrichedDoc).guestNationality = none
  ∧ (updatedUnifiedDoc 5 [] bkR1 enrichedDoc).guestEmail = none
  ∧ (updatedUnifiedDoc 5 [] bkR1 enrichedDoc).guestPhone = none
  ∧ enrichedDoc.guestCountry = some "BR"
  ∧ enrichedDoc.guestEmail = some "maria@example.com"
  ∧ "clientId" ∈ unifiedSetFields
  ∧ "guestCountry" ∈ unifiedSetFields
  ∧ "guestLanguage" ∈ unifiedSetFields
  ∧ "guestNationality" ∈ unifiedSetFields
  ∧ "guestEmail" ∈ unifiedSetFields
  ∧ "guestPhone" ∈ unifiedSetFields
  ∧ "responsibleId" ∉ unifiedSetFields
  ∧ "responsibleName" ∉ unifiedSetFields
  ∧ "feedbackRating" ∉ unifiedSetFields
  ∧ "feedbackComment" ∉ unifiedSetFields
  ∧ "feedbackDate" ∉ unifiedSetFields
  ∧ (updatedUnifiedDoc 5 [] bkR1 enrichedDoc).responsibleId = some "U7"
  ∧ (updatedUnifiedDoc 5 [] bkR1 enrichedDoc).feedbackRating = some 5 := by
  decide

/-- Counterexample for C3: in the §8 scenario the financial summary does
report 900 / 1 booking, but the occupancy count for 2024-06-05 is 0 — the
dashboard query drops `type == blocked` records, so the blocked booking
does not make the listing occupied. -/
theorem blocked_occupancy_counterexample :
    financialSummaryTotals [docA, docB] "2024-06-01" "2024-06-10"
      = { totalRevenue := 900, totalNights := 3, reservationsCount := 1 }
  ∧ occupiedOnDay (getUnifiedBookingsQuery [docA, docB] "2024-05-06" "2024-07-05")
      "2024-06-05" = 0
  ∧ ¬ 0 < occupiedOnDay
        (getUnifiedBookingsQuery [docA, docB] "2024-05-06" "2024-07-05")
        "2024-06-05" := by
  decide

/-- Claim C3 (amended): blocked bookings are excluded from revenue/guest
analytics *and* from the dashboard read set that feeds occupancy; in the
§8 scenario the financial summary reports totalRevenue=900,
reservationsCount=1, and the listing counts as *not* occupied on
2024-06-05. -/
theorem blocked_excluded_from_reads :
    financialSummaryTotals [docA, docB] "2024-06-01" "2024-06-10"
      = { totalRevenue := 900, totalNights := 3, reservationsCount := 1 }
  ∧ (∀ (docs : List UnifiedDoc) (fromD toD : String) (b : UnifiedDoc),
      b ∈ getUnifiedBookingsQuery docs fromD toD → b.type ≠ "blocked")
  ∧ occupiedOnDay (getUnifiedBookingsQuery [docA, docB] "2024-05-06" "2024-07-05")
      "2024-06-05" = 0 := by
  refine ⟨by decide, ?_, by decide⟩
  intro docs fromD toD b hb
  have := (List.mem_filter.mp hb).2
  simp only [Bool.and_eq_true, bne_iff_ne] at this
  exact this.2

/-- Witness for C3 (amended): the normal scenario booking passes the
dashboard query and is indeed not blocked. -/
theorem blocked_excluded_from_reads_witness : docA.type ≠ "blocked" :=
  blocked_excluded_from_reads.2.1 [docA, docB] "2024-06-01" "2024-06-10" docA
    (by decide)

/-- Counterexample for C8: a booking occupies its checkout day under the
code's count — `occupiedOnDay` uses `checkOutDate >= day` — whereas the
claimed half-open `[checkIn, checkOut)` reading would give 0. -/
theorem occupancy_checkout_day_counterexample :
    occupiedOnDay [docA] "2024-06-04" = 1
  ∧ occupiedOnDayHalfOpen [docA] "2024-06-04" = 0
  ∧ docA.checkOutDate = "2024-06-04" := by
  decide

/-- Claim C8 (amended): the per-day occupied count equals the number of
distinct listing ids having a non-blocked booking whose *closed* interval
`[checkIn, checkOut]` contains the day — the checkout day counts as
occupied — over the bookings fetched by the dashboard query. -/
theorem occupied_on_day_closed_interval (docs : List UnifiedDoc)
    (fromD toD day ℓ : String) :
    (ℓ ∈ (((getUnifiedBookingsQuery docs fromD toD).filter fun b =>
          strLe b.checkInDate day && strLe day b.checkOutDate).map
        UnifiedDoc.listingId).dedup
      ↔ ∃ b ∈ docs, b.listingId = ℓ ∧ b.type ≠ "blocked" ∧
          strLe fromD b.checkOutDate = true ∧ strLe b.checkInDate toD = true ∧
          strLe b.checkInDate day = true ∧ strLe day b.checkOutDate = true)
  ∧ occupiedOnDay (getUnifiedBookingsQuery docs fromD toD) day
      = (((getUnifiedBookingsQuery docs fromD toD).filter fun b =>
          strLe b.checkInDate day && strLe day b.checkOutDate).map
        UnifiedDoc.listingId).dedup.length := by
  refine ⟨?_, rfl⟩
  simp only [List.mem_dedup, List.mem_map, List.mem_filter,
    getUnifiedBookingsQuery, Bool.and_eq_true, bne_iff_ne]
  constructor
  · rintro ⟨b, ⟨⟨hb, ⟨hf, ht⟩, hnb⟩, hi, ho⟩, rfl⟩
    exact ⟨b, hb, rfl, hnb, hf, ht, hi, ho⟩
  · rintro ⟨b, hb, rfl, hnb, hf, ht, hi, ho⟩
    exact ⟨b, ⟨⟨hb, ⟨hf, ht⟩, hnb⟩, hi, ho⟩, rfl⟩

/-- Witness for C8 (amended): listing L1 counts as occupied on booking A's
checkout-inclusive stay interval. -/
theorem occupied_on_day_closed_interval_witness :
    "L1" ∈ (((getUnifiedBookingsQuery [docA] "2024-05-06" "2024-07-05").filter
        fun b => strLe b.checkInDate "2024-06-01" &&
          strLe "2024-06-01" b.checkOutDate).map UnifiedDoc.listingId).dedup :=
  (occupied_on_day_closed_interval [docA] "2024-05-06" "2024-07-05" "2024-06-01"
      "L1").1.mpr
    ⟨docA, by simp, rfl, by decide, by decide, by decide, by decide, by decide⟩

/-- Counterexample for C9: a non-blocked, in-window booking whose resolved
price is null is still rolled up — it is counted (reservationsCount 1,
trend bookings 1) while contributing `priceValue || 0 = 0` to revenue,
i.e. the null price *is* silently coerced to 0. -/
theorem null_price_coerced_counterexample :
    docNull.priceValue = none
  ∧ financialSummaryTotals [docNull] "2024-06-01" "2024-06-10"
      = { totalRevenue := 0, totalNights := 2, reservationsCount := 1 }
  ∧ revenueTrendMonth [docNull] "2024-06-01" "2024-06-30" = (0, 1) := by
  decide

/-- The summary fold distributes over its accumulator: folding from `a` is
folding from zero plus `a`, componentwise. -/
theorem finStep_foldl_shift (l : List UnifiedDoc) (a : FinancialTotals) :
    l.foldl finStep a =
      { totalRevenue := a.totalRevenue +
          (l.foldl finStep ⟨0, 0, 0⟩).totalRevenue
        totalNights := a.totalNights +
          (l.foldl finStep ⟨0, 0, 0⟩).totalNights
        reservationsCount := a.reservationsCount +
          (l.foldl finStep ⟨0, 0, 0⟩).reservationsCount } := by
  induction l generalizing a with
  | nil => simp
  | cons x xs ih =>
    simp only [List.foldl_cons]
    rw [ih (finStep a x), ih (finStep ⟨0, 0, 0⟩ x)]
    unfold finStep
    split_ifs
    all_goals simp [FinancialTotals.mk.injEq]
    all_goals omega

/-- The trend fold distributes over its accumulator likewise. -/
theorem trendStep_foldl_shift (l : List UnifiedDoc) (a : Int × Nat) :
    l.foldl trendStep a =
      (a.1 + (l.foldl trendStep (0, 0)).1, a.2 + (l.foldl trendStep (0, 0)).2) := by
  induction l generalizing a with
  | nil => simp
  | cons x xs ih =>
    simp only [List.foldl_cons]
    rw [ih (trendStep a x), ih (trendStep (0, 0) x)]
    unfold trendStep
    split_ifs
    all_goals simp [Prod.ext_iff]
    all_goals omega

/-- Claim C9 (amended): in the financial rollups a booking whose resolved
price is null is *not* treated as unknown — `priceValue || 0` coerces it
to 0 — so it adds nothing to the revenue figures while still being counted
in `reservationsCount` and in the trend's booking count. -/
theorem null_price_rollup (b : UnifiedDoc) (docs : List UnifiedDoc)
    (fromD toD : String) (hnull : b.priceValue = none)
    (hnb : b.type ≠ "blocked") (hf : strLe fromD b.checkOutDate = true)
    (ht : strLe b.checkInDate toD = true) :
    (financialSummaryTotals (b :: docs) fromD toD).totalRevenue
        = (financialSummaryTotals docs fromD toD).totalRevenue
  ∧ (financialSummaryTotals (b :: docs) fromD toD).reservationsCount
        = (financialSummaryTotals docs fromD toD).reservationsCount + 1
  ∧ (revenueTrendMonth (b :: docs) fromD toD).1
        = (revenueTrendMonth docs fromD toD).1
  ∧ (revenueTrendMonth (b :: docs) fromD toD).2
        = (revenueTrendMonth docs fromD toD).2 + 1 := by
  have hsel : getBookingsForPeriod (b :: docs) fromD toD false
      = b :: getBookingsForPeriod docs fromD toD false := by
    simp [getBookingsForPeriod, overlapsWindow, hf, ht, List.filter_cons,
      bne_iff_ne, hnb]
  have hstep : finStep ⟨0, 0, 0⟩ b = ⟨0, b.nights, 1⟩ := by
    simp [finStep, bne_iff_ne, hnb, hnull, numOr]
  have htrend : trendStep (0, 0) b = (0, 1) := by
    simp [trendStep, bne_iff_ne, hnb, hnull, numOr]
  unfold financialSummaryTotals revenueTrendMonth
  rw [hsel]
  simp only [List.foldl_cons, hstep, htrend]
  rw [finStep_foldl_shift, trendStep_foldl_shift]
  refine ⟨by simp, by simp [Nat.add_comm], by simp, by simp [Nat.add_comm]⟩

/-- Witness for C9 (amended): the null-priced sample booking adds nothing
to revenue while incrementing the counts. -/
theorem null_price_rollup_witness :
    (financialSummaryTotals [docNull] "2024-06-01" "2024-06-10").totalRevenue
        = (financialSummaryTotals [] "2024-06-01" "2024-06-10").totalRevenue
  ∧ (financialSummaryTotals [docNull] "2024-06-01" "2024-06-10").reservationsCount
        = (financialSummaryTotals [] "2024-06-01" "2024-06-10").reservationsCount + 1
  ∧ (revenueTrendMonth [docNull] "2024-06-01" "2024-06-10").1
        = (revenueTrendMonth [] "2024-06-01" "2024-06-10").1
  ∧ (revenueTrendMonth [docNull] "2024-06-01" "2024-06-10").2
        = (revenueTrendMonth [] "2024-06-01" "2024-06-10").2 + 1 :=
  null_price_rollup docNull [] "2024-06-01" "2024-06-10" rfl (by decide)
    (by decide) (by decide)

/-- A bulk write leaves keys outside its input untouched. -/
theorem writeUnified_not_mem (now : Nat) (listings : List (String × ListingDetails))
    (bookings : List (String × StaysBooking)) (mirror : String → Option UnifiedDoc)
    (k : String) (hk : k ∉ bookings.map Prod.fst) :
    writeUnifiedBookings now listings bookings mirror k = mirror k := by
  induction bookings generalizing mirror with
  | nil => rfl
  | cons e rest ih =>
    simp only [List.map_cons, List.mem_cons, not_or] at hk
    show writeUnifiedBookings now listings rest
      (upsertUnifiedOne now listings mirror e) k = mirror k
    rw [ih (upsertUnifiedOne now listings mirror e) hk.2]
    simp [upsertUnifiedOne, hk.1]

/-- Pointwise evaluation of a bulk write with distinct keys: the value at
`k` is the upsert of the unique entry keyed `k` over the prior value, or
the prior value when no entry has key `k`. -/
theorem writeUnified_eval (now : Nat) (listings : List (String × ListingDetails))
    (bookings : List (String × StaysBooking)) (mirror : String → Option UnifiedDoc)
    (k : String) (hnd : (bookings.map Prod.fst).Nodup) :
    writeUnifiedBookings now listings bookings mirror k =
      match bookings.find? (fun e => e.1 == k) with
      | some e => some (match mirror k with
          | some old => updatedUnifiedDoc now listings e.2 old
          | none => insertedUnifiedDoc now listings e.2)
      | none => mirror k := by
  induction bookings generalizing mirror with
  | nil => rfl
  | cons e rest ih =>
    simp only [List.map_cons, List.nodup_cons] at hnd
    obtain ⟨he, hrest⟩ := hnd
    show writeUnifiedBookings now listings rest
      (upsertUnifiedOne now listings mirror e) k = _
    by_cases hk : e.1 = k
    · subst hk
      rw [List.find?_cons_of_pos _ (by simp)]
      rw [writeUnified_not_mem now listings rest _ e.1
        (by simpa using he)]
      simp only [upsertUnifiedOne, if_pos rfl]
      rcases mirror e.1 with _ | old <;> rfl
    · rw [List.find?_cons_of_neg _ (by simpa using hk)]
      rw [ih (upsertUnifiedOne now listings mirror e) hrest]
      have hval : upsertUnifiedOne now listings mirror e k = mirror k := by
        unfold upsertUnifiedOne
        rw [if_neg (fun h => hk h.symm)]
      rw [hval]

/-- Re-applying the `$set` over a document the writer just produced changes
only the sync timestamps (update-over-insert case). -/
theorem updated_of_inserted (now1 now2 : Nat)
    (listings : List (String × ListingDetails)) (b : StaysBooking) :
    updatedUnifiedDoc now2 listings b (insertedUnifiedDoc now1 listings b)
      = { insertedUnifiedDoc now1 listings b with
          updatedAt := now2, syncedAt := now2 } := rfl

/-- Re-applying the `$set` over a document the writer just produced changes
only the sync timestamps (update-over-update case). -/
theorem updated_of_updated (now1 now2 : Nat)
    (listings : List (String × ListingDetails)) (b : StaysBooking)
    (old : UnifiedDoc) :
    updatedUnifiedDoc now2 listings b (updatedUnifiedDoc now1 listings b old)
      = { updatedUnifiedDoc now1 listings b old with
          updatedAt := now2, syncedAt := now2 } := rfl

/-- Claim C6: running the upsert writer twice with the same input map
(distinct keys, as entries of a JS `Map`) yields, at every key, the state
of the single run except that touched documents carry the second run's
`updatedAt`/`syncedAt`; in particular `createdAt` and every other field
are unchanged by the second run. -/
theorem writeUnified_idempotent (now1 now2 : Nat)
    (listings : List (String × ListingDetails))
    (bookings : List (String × StaysBooking))
    (mirror : String → Option UnifiedDoc)
    (hnd : (bookings.map Prod.fst).Nodup) (k : String) :
    writeUnifiedBookings now2 listings bookings
        (writeUnifiedBookings now1 listings bookings mirror) k
      = if k ∈ bookings.map Prod.fst then
          (writeUnifiedBookings now1 listings bookings mirror k).map
            (fun d => { d with updatedAt := now2, syncedAt := now2 })
        else writeUnifiedBookings now1 listings bookings mirror k := by
  rw [writeUnified_eval now2 listings bookings _ k hnd,
    writeUnified_eval now1 listings bookings mirror k hnd]
  rcases hf : bookings.find? (fun e => e.1 == k) with _ | e
  · have hk : k ∉ bookings.map Prod.fst := by
      intro hmem
      obtain ⟨e, he, he1⟩ := List.mem_map.mp hmem
      have : (bookings.find? (fun e => e.1 == k)).isSome :=
        List.find?_isSome.mpr ⟨e, he, by simp [he1]⟩
      rw [hf] at this
      simp at this
    simp [hf, hk]
  · have hk : k ∈ bookings.map Prod.fst := by
      have h1 := List.mem_of_find?_eq_some hf
      have h2 : e.1 = k := by simpa using List.find?_some hf
      exact List.mem_map.mpr ⟨e, h1, h2⟩
    rcases hm : mirror k with _ | old
    · simp [hf, hk, hm, updated_of_inserted]
    · simp [hf, hk, hm, updated_of_updated]

/-- Witness for C6: re-syncing the single-entry map over an empty mirror
refreshes only the sync timestamps of document R1. -/
theorem writeUnified_idempotent_witness :
    writeUnifiedBookings 2 [] [("R1", bkR1)]
        (writeUnifiedBookings 1 [] [("R1", bkR1)] (fun _ => none)) "R1"
      = (writeUnifiedBookings 1 [] [("R1", bkR1)] (fun _ => none) "R1").map
          (fun d => { d with updatedAt := 2, syncedAt := 2 }) := by
  have h := writeUnified_idempotent 1 2 [] [("R1", bkR1)] (fun _ => none)
    (by simp) "R1"
  simpa using h

end Stays
